import Mathlib

/-!
Verification of the alert classification, deduplication and templating engine
implemented by `Notifier._message_templater` in `app/notification.py`.

The Python data is a nested dictionary
  exchange -> market -> \x7b indicators: indicator -> list of occurrence \x7d
where each occurrence is a dictionary with keys `config`, `result` and
(possibly) `status`.  Dictionaries are modelled as association lists whose
order is the Python insertion/iteration order; the pandas data frame `result`
is modelled as the list of its rows; exceptions are modelled with
`Except String`.  The Jinja template is external to the engine, so rendering
is a parameter `render : RenderCtx -> Except String String` receiving exactly
the keyword context built at the call site of `message_template.render`.
-/

namespace NewApp

/-- A cell value of an analysis row.  Python floats are modelled as rationals,
which is enough to express the `format(x, '.8f')` fixed-point formatting that
the engine performs on them. -/
inductive Value where
  | float (q : ℚ)
  | int (n : Int)
  | bool (b : Bool)
  | str (s : String)
deriving DecidableEq, Repr

/-- Association list with string keys, modelling a Python dict (first match
wins on lookup; Python dicts have unique keys). -/
abbrev Assoc (α : Type) := List (String × α)

/-- Dictionary lookup on an association list. -/
def alookup {α : Type} : Assoc α → String → Option α
  | [], _ => none
  | (k, v) :: rest, key => if k = key then some v else alookup rest key

/-- One row of an occurrence's `result` data frame.  `is_hot` / `is_cold` are
the mandatory boolean columns; `cols` holds the remaining named columns. -/
structure Row where
  is_hot : Bool
  is_cold : Bool
  cols : Assoc Value
deriving DecidableEq, Repr

/-- The `config` sub-dictionary of an occurrence, as read by the engine:
`signal` (list of column names), `alert_frequency` (compared against the
string literal "once") and `alert_enabled`. -/
structure IndicatorConfig where
  signal : List String
  alert_frequency : String
  alert_enabled : Bool
deriving DecidableEq, Repr

/-- One indicator occurrence: the `config` dict, the `result` rows, and the
optional `status` key (absent on fresh upstream snapshots, written by the
engine when an alert fires). -/
structure Occurrence where
  config : IndicatorConfig
  result : List Row
  status : Option String
deriving DecidableEq, Repr

/-- A market entry; the engine only reads its `indicators` key, mapping each
indicator name to its list of occurrences. -/
structure Market where
  indicators : Assoc (List Occurrence)
deriving DecidableEq, Repr

/-- The full analysis snapshot / state-store shape:
exchange -> market -> Market. -/
abbrev Snapshot := Assoc (Assoc Market)

/-- The keyword context passed to `message_template.render(...)` at
notification.py lines 268-277. -/
structure RenderCtx where
  values : Assoc Value
  exchange : String
  market : String
  indicator : String
  indicator_number : Nat
  analysis : Occurrence
  status : String
  last_status : String
deriving DecidableEq, Repr

/-- Round a rational to the nearest integer, ties to even — the rounding that
Python's fixed-point `format(x, '.8f')` applies to the scaled value. -/
def roundHalfEven (x : ℚ) : Int :=
  let f := Int.floor x
  let r := x - f
  if r < 1 / 2 then f
  else if 1 / 2 < r then f + 1
  else if f % 2 = 0 then f else f + 1

/-- The eight zero-padded decimal digits of `n % 10^8`, most significant
first. -/
def frac8Digits (n : Nat) : List Char :=
  [Nat.digitChar (n / 10000000 % 10), Nat.digitChar (n / 1000000 % 10),
   Nat.digitChar (n / 100000 % 10), Nat.digitChar (n / 10000 % 10),
   Nat.digitChar (n / 1000 % 10), Nat.digitChar (n / 100 % 10),
   Nat.digitChar (n / 10 % 10), Nat.digitChar (n % 10)]

/-- Decimal rendering of a scaled non-negative value `n` (in units of
10^-8) as integer part, dot, eight fractional digits. -/
def natFixed8 (n : Nat) : String :=
  toString (n / 100000000) ++ "." ++ String.mk (frac8Digits (n % 100000000))

/-- Python's `format(x, '.8f')`: fixed-point, exactly eight digits after the
decimal point. -/
def formatFixed8 (q : ℚ) : String :=
  if q < 0 then "-" ++ natFixed8 (roundHalfEven (-q * 100000000)).toNat
  else natFixed8 (roundHalfEven (q * 100000000)).toNat

/-- notification.py lines 243-244: a float cell is replaced by its
`'.8f'`-formatted string; any other value is passed through unchanged. -/
def formatValue (v : Value) : Value :=
  match v with
  | .float q => .str (formatFixed8 q)
  | v => v

/-- notification.py lines 239-244: build the `values` dict from the signal
columns of the last result row.  A missing last row raises `IndexError`
(pandas `iloc[-1]` on an empty frame); a missing column raises `KeyError`. -/
def signalValues (result : List Row) : List String → Except String (Assoc Value)
  | [] => Except.ok []
  | s :: rest => do
    let row ← match result.getLast? with
      | some row => Except.ok row
      | none => Except.error "IndexError"
    let v ← match alookup row.cols s with
      | some v => Except.ok v
      | none => Except.error "KeyError"
    let vs ← signalValues result rest
    Except.ok ((s, formatValue v) :: vs)

/-- notification.py lines 240 and 247: `latest_result` is a function-local
assigned inside the `for signal` loop, so its value persists across the
occurrence loop of one call.  With a non-empty `signal` list it is the
occurrence's own last row (`IndexError` on an empty frame); with an empty
`signal` list the loop never runs and line 247 reads whatever a previously
processed occurrence left in `latest_result` — `NameError` only when no
occurrence of this call has assigned it yet. -/
def latestResult (latest0 : Option Row) (occ : Occurrence) :
    Except String Row :=
  match occ.config.signal with
  | [] =>
    match latest0 with
    | none => Except.error "NameError"
    | some row => Except.ok row
  | _ :: _ =>
    match occ.result.getLast? with
    | some row => Except.ok row
    | none => Except.error "IndexError"

/-- notification.py lines 246-250: three-valued status of the row held by
`latest_result`, checking `is_hot` before `is_cold`. -/
def classifyStatus (row : Row) : String :=
  if row.is_hot then "hot" else if row.is_cold then "cold" else "neutral"

/-- The `self.last_analysis[exchange][market]['indicators'][indicator][index]
['status']` access chain of notification.py line 254: `none` when any step is
missing. -/
def storedStatus? (st : Snapshot) (exchange market indicator : String)
    (index : Nat) : Option String :=
  (alookup st exchange).bind fun mkts =>
  (alookup mkts market).bind fun mkt =>
  (alookup mkt.indicators indicator).bind fun occs =>
  occs[index]?.bind fun occ => occ.status

/-- notification.py lines 253-256: the lookup wrapped in a bare
`try/except`, yielding the empty string on any failure. -/
def lookupLastStatus (st : Snapshot) (exchange market indicator : String)
    (index : Nat) : String :=
  (storedStatus? st exchange market indicator index).getD ""

/-- notification.py lines 238-277, the body of the innermost loop for one
occurrence: build values, classify the row held by `latest_result`, and if it
is alert-worthy decide the policy, write the status into the occurrence and
render.  Takes the `latest_result` value in scope on entry and returns the
text appended to the message, the (possibly updated) occurrence, and the
`latest_result` value left in scope for the next occurrence. -/
def processOccurrence (render : RenderCtx → Except String String)
    (lastA : Snapshot) (exchange market indicator : String) (index : Nat)
    (latest0 : Option Row) (occ : Occurrence) :
    Except String (String × Occurrence × Option Row) := do
  let values ← signalValues occ.result occ.config.signal
  let latest ← latestResult latest0 occ
  let status := classifyStatus latest
  if latest.is_hot || latest.is_cold then
    let last_status := lookupLastStatus lastA exchange market indicator index
    let sa := if occ.config.alert_frequency = "once" ∧ last_status = status
      then false else true
    let should_alert := if occ.config.alert_enabled = false then false else sa
    if should_alert then
      let occ2 : Occurrence := { occ with status := some status }
      let msg ← render
        ⟨values, exchange, market, indicator, index, occ2, status, last_status⟩
      Except.ok (msg, occ2, some latest)
    else
      Except.ok ("", occ, some latest)
  else
    Except.ok ("", occ, some latest)

/-- notification.py line 237: `for index, analysis in enumerate(...)`,
threading the `latest_result` local through the iterations. -/
def processOccList (render : RenderCtx → Except String String)
    (lastA : Snapshot) (exchange market indicator : String) :
    Nat → Option Row → List Occurrence →
    Except String (String × List Occurrence × Option Row)
  | _, latest0, [] => Except.ok ("", [], latest0)
  | index, latest0, occ :: rest => do
    let (msg, occ2, latest1) ← processOccurrence render lastA exchange market
      indicator index latest0 occ
    let (msgs, rest2, latest2) ← processOccList render lastA exchange market
      indicator (index + 1) latest1 rest
    Except.ok (msg ++ msgs, occ2 :: rest2, latest2)

/-- notification.py line 236: loop over the indicators dict of one market. -/
def processIndicators (render : RenderCtx → Except String String)
    (lastA : Snapshot) (exchange market : String) :
    Option Row → Assoc (List Occurrence) →
    Except String (String × Assoc (List Occurrence) × Option Row)
  | latest0, [] => Except.ok ("", [], latest0)
  | latest0, (indicator, occs) :: rest => do
    let (msg, occs2, latest1) ← processOccList render lastA exchange market
      indicator 0 latest0 occs
    let (msgs, rest2, latest2) ← processIndicators render lastA exchange
      market latest1 rest
    Except.ok (msg ++ msgs, (indicator, occs2) :: rest2, latest2)

/-- notification.py line 235: loop over the markets of one exchange. -/
def processMarkets (render : RenderCtx → Except String String)
    (lastA : Snapshot) (exchange : String) :
    Option Row → Assoc Market →
    Except String (String × Assoc Market × Option Row)
  | latest0, [] => Except.ok ("", [], latest0)
  | latest0, (market, mkt) :: rest => do
    let (msg, inds2, latest1) ← processIndicators render lastA exchange
      market latest0 mkt.indicators
    let (msgs, rest2, latest2) ← processMarkets render lastA exchange
      latest1 rest
    Except.ok (msg ++ msgs, (market, ⟨inds2⟩) :: rest2, latest2)

/-- notification.py line 234: loop over the exchanges of the snapshot. -/
def processExchanges (render : RenderCtx → Except String String)
    (lastA : Snapshot) :
    Option Row → Snapshot → Except String (String × Snapshot × Option Row)
  | latest0, [] => Except.ok ("", [], latest0)
  | latest0, (exchange, mkts) :: rest => do
    let (msg, mkts2, latest1) ← processMarkets render lastA exchange
      latest0 mkts
    let (msgs, rest2, latest2) ← processExchanges render lastA latest1 rest
    Except.ok (msg ++ msgs, (exchange, mkts2) :: rest2, latest2)

/-- Python's `\x7b**old, **new\x7d`: old keys in order, their values overridden by
`new` where present, followed by the keys only `new` has. -/
def dictMerge {α : Type} (old new : Assoc α) : Assoc α :=
  old.map (fun kv => match alookup new kv.1 with
    | some v => (kv.1, v)
    | none => kv)
  ++ new.filter (fun kv => (alookup old kv.1).isNone)

/-- notification.py lines 218-281, `Notifier._message_templater` in
state-passing form.  `last_analysis` is the persistent store; the function
returns the accumulated message, the input snapshot after the in-place
`status` writes of line 267, and the store after the line-280 merge.  The
`latest_result` local starts the call unassigned (`none`) and its final value
dies with the call.  A raised exception is `Except.error` (the merge is then
never reached). -/
def message_templater (render : RenderCtx → Except String String)
    (last_analysis new_analysis : Snapshot) :
    Except String (String × Snapshot × Snapshot) := do
  let lastA := match last_analysis with
    | [] => new_analysis
    | _ => last_analysis
  let (msg, updated, _) ← processExchanges render lastA none new_analysis
  Except.ok (msg, updated, dictMerge lastA updated)

/-! ### Concrete fixtures shared by the examples below -/

/-- A renderer that always succeeds with a fixed non-empty text. -/
def okRender : RenderCtx → Except String String := fun _ => Except.ok "ALERT"

theorem alert_text_ne_empty : ("ALERT" : String) ≠ "" := by decide

/-- A single-row occurrence with one signal column. -/
def mkOcc (freq : String) (enabled hot cold : Bool) (sig : String)
    (cols : Assoc Value) (st : Option String) : Occurrence :=
  ⟨⟨[sig], freq, enabled⟩, [⟨hot, cold, cols⟩], st⟩

/-- A snapshot holding one exchange, one market, one indicator with a single
occurrence. -/
def oneOccSnap (ex mk ind : String) (occ : Occurrence) : Snapshot :=
  [(ex, [(mk, ⟨[(ind, [occ])]⟩)])]

/-! ### Association-list lemmas -/

theorem alookup_append_some {α : Type} {l1 l2 : Assoc α} {k : String}
    {v : α} (h : alookup l1 k = some v) : alookup (l1 ++ l2) k = some v := by
  induction l1 with
  | nil => simp [alookup] at h
  | cons kv rest ih =>
    by_cases hk : kv.1 = k
    · simpa [alookup, hk] using by simpa [alookup, hk] using h
    · simp [alookup, hk] at h ⊢
      exact ih h

theorem alookup_append_none {α : Type} {l1 : Assoc α} (l2 : Assoc α)
    {k : String} (h : alookup l1 k = none) :
    alookup (l1 ++ l2) k = alookup l2 k := by
  induction l1 with
  | nil => simp [alookup]
  | cons kv rest ih =>
    by_cases hk : kv.1 = k
    · simp [alookup, hk] at h
    · simp [alookup, hk] at h ⊢
      exact ih h

/-- Lookup in the overriding `map` half of `dictMerge`. -/
theorem alookup_map_override {α : Type} (old new : Assoc α) (k : String) :
    alookup (old.map (fun kv => match alookup new kv.1 with
      | some v => (kv.1, v)
      | none => kv)) k =
    match alookup old k, alookup new k with
    | none, _ => none
    | some _, some v2 => some v2
    | some v, none => some v := by
  induction old with
  | nil => simp [alookup]
  | cons kv rest ih =>
    by_cases hk : kv.1 = k
    · subst hk
      cases hnew : alookup new kv.1 <;> simp [alookup, hnew]
    · cases hhd : alookup new kv.1 <;> simp [alookup, hk, hhd, ih]

/-- Lookup in the `filter` half of `dictMerge`. -/
theorem alookup_filter_merge {α : Type} (old new : Assoc α) (k : String) :
    alookup (new.filter (fun kv => (alookup old kv.1).isNone)) k =
    match alookup old k with
    | none => alookup new k
    | some _ => none := by
  induction new with
  | nil => cases alookup old k <;> simp [alookup]
  | cons kv rest ih =>
    by_cases hk : kv.1 = k
    · subst hk
      cases hold : alookup old kv.1 <;>
        simp [alookup, List.filter, hold, ih]
    · cases hhd : alookup old kv.1 <;>
        simp [alookup, List.filter, hhd, hk, ih]

/-- The exchange-granularity behaviour of the Python dict merge. -/
theorem alookup_dictMerge {α : Type} (old new : Assoc α) (k : String) :
    alookup (dictMerge old new) k =
    match alookup new k with
    | some v => some v
    | none => alookup old k := by
  unfold dictMerge
  cases hold : alookup old k with
  | none =>
    have hmap := alookup_map_override old new k
    rw [hold] at hmap
    rw [alookup_append_none _ hmap]
    have hfil := alookup_filter_merge old new k
    rw [hold] at hfil
    rw [hfil]
    cases alookup new k <;> rfl
  | some v =>
    have hmap := alookup_map_override old new k
    rw [hold] at hmap
    cases hnew : alookup new k with
    | none =>
      rw [hnew] at hmap
      rw [alookup_append_some hmap]
    | some v2 =>
      rw [hnew] at hmap
      rw [alookup_append_some hmap]

/-! ### Claim theorems -/

/-- C5: status classification is a pure function of the last row's `is_hot`
and `is_cold` booleans; `is_hot` is checked first so Hot wins a tie, then
Cold, otherwise Neutral. -/
theorem classify_status_spec (row : Row) :
    (row.is_hot = true → classifyStatus row = "hot") ∧
    (row.is_hot = false → row.is_cold = true → classifyStatus row = "cold") ∧
    (row.is_hot = false → row.is_cold = false →
      classifyStatus row = "neutral") ∧
    ∀ r2 : Row, row.is_hot = r2.is_hot → row.is_cold = r2.is_cold →
      classifyStatus row = classifyStatus r2 := by
  refine ⟨?_, ?_, ?_, ?_⟩
  · intro h; simp [classifyStatus, h]
  · intro h1 h2; simp [classifyStatus, h1, h2]
  · intro h1 h2; simp [classifyStatus, h1, h2]
  · intro r2 h1 h2; simp [classifyStatus, h1, h2]

theorem classify_status_spec_w :
    classifyStatus ⟨true, true, []⟩ = "hot" ∧
    classifyStatus ⟨false, true, []⟩ = "cold" ∧
    classifyStatus ⟨false, false, []⟩ = "neutral" :=
  ⟨(classify_status_spec ⟨true, true, []⟩).1 rfl,
   (classify_status_spec ⟨false, true, []⟩).2.1 rfl rfl,
   (classify_status_spec ⟨false, false, []⟩).2.2.1 rfl rfl⟩

/-- C6: the end-of-cycle state merge works at exchange granularity: an
exchange key present in the new snapshot maps to the new snapshot's subtree
wholesale, and an exchange key absent from the new snapshot keeps the prior
state's subtree. -/
theorem merge_exchange_granularity (old new : Snapshot) (k : String) :
    (∀ subtree, alookup new k = some subtree →
      alookup (dictMerge old new) k = some subtree) ∧
    (alookup new k = none →
      alookup (dictMerge old new) k = alookup old k) := by
  constructor
  · intro subtree hnew
    rw [alookup_dictMerge, hnew]
  · intro hnew
    rw [alookup_dictMerge, hnew]

theorem merge_exchange_granularity_w :
    alookup (dictMerge [("a", [("m", (⟨[]⟩ : Market))])] [("a", [])])
      "a" = some [] ∧
    alookup (dictMerge [("b", [("m", (⟨[]⟩ : Market))])] [("a", [])])
      "b" = some [("m", (⟨[]⟩ : Market))] :=
  ⟨(merge_exchange_granularity [("a", [("m", ⟨[]⟩)])] [("a", [])] "a").1
      [] rfl,
   (merge_exchange_granularity [("b", [("m", ⟨[]⟩)])] [("a", [])] "b").2
      rfl⟩

theorem digitChar_isDigit {n : Nat} (h : n < 10) :
    (Nat.digitChar n).isDigit = true := by
  interval_cases n <;> decide

theorem frac8Digits_length (n : Nat) : (frac8Digits n).length = 8 := by
  simp [frac8Digits]

theorem frac8Digits_isDigit (n : Nat) :
    ∀ c ∈ frac8Digits n, c.isDigit = true := by
  intro c hc
  simp only [frac8Digits, List.mem_cons, List.not_mem_nil, or_false] at hc
  rcases hc with h | h | h | h | h | h | h | h <;>
    (subst h; exact digitChar_isDigit (Nat.mod_lt _ (by norm_num)))

theorem natFixed8_shape (n : Nat) :
    ∃ pre ds, natFixed8 n = pre ++ "." ++ String.mk ds ∧
      ds.length = 8 ∧ ∀ c ∈ ds, c.isDigit = true :=
  ⟨toString (n / 100000000), frac8Digits (n % 100000000), rfl,
    frac8Digits_length _, frac8Digits_isDigit _⟩

/-- C9: every float signal value placed in the rendering context is
formatted as a fixed-point string with exactly eight digits after the
decimal point (0.1 becomes "0.10000000"), and every non-float value passes
through `formatValue` unmodified; `signalValues` places exactly
`formatValue` of the looked-up column value into the context. -/
theorem float_format_eight_places :
    (∀ q : ℚ, formatValue (.float q) = .str (formatFixed8 q)) ∧
    (∀ q : ℚ, ∃ pre ds, formatFixed8 q = pre ++ "." ++ String.mk ds ∧
      ds.length = 8 ∧ ∀ c ∈ ds, c.isDigit = true) ∧
    formatFixed8 (1 / 10) = "0.10000000" ∧
    (∀ v : Value, (∀ q, v ≠ .float q) → formatValue v = v) ∧
    (∀ sig v (row : Row), alookup row.cols sig = some v →
      signalValues [row] [sig] = Except.ok [(sig, formatValue v)]) := by
  refine ⟨fun q => rfl, ?_, ?_, ?_, ?_⟩
  · intro q
    unfold formatFixed8
    by_cases hq : q < 0
    · rw [if_pos hq]
      obtain ⟨pre, ds, h1, h2, h3⟩ :=
        natFixed8_shape (roundHalfEven (-q * 100000000)).toNat
      exact ⟨"-" ++ pre, ds, by rw [h1]; simp [String.append_assoc], h2, h3⟩
    · rw [if_neg hq]
      exact natFixed8_shape _
  · have h1 : ((1 : ℚ) / 10) * 100000000 = (10000000 : ℚ) := by norm_num
    have h2 : roundHalfEven (10000000 : ℚ) = 10000000 := by
      unfold roundHalfEven
      norm_num
    unfold formatFixed8
    rw [if_neg (by norm_num : ¬((1 : ℚ) / 10) < 0), h1, h2]
    rfl
  · intro v hv
    cases v with
    | float q => exact absurd rfl (hv q)
    | int n => rfl
    | bool b => rfl
    | str s => rfl
  · intro sig v row h
    simp [signalValues, List.getLast?, h, Bind.bind, Except.bind]

theorem float_format_eight_places_w :
    formatFixed8 (1 / 10) = "0.10000000" ∧
    formatValue (.int 5) = .int 5 ∧
    signalValues [⟨true, false, [("value", .int 5)]⟩] ["value"] =
      Except.ok [("value", .int 5)] :=
  ⟨float_format_eight_places.2.2.1,
   float_format_eight_places.2.2.2.1 (.int 5) (fun _ h => Value.noConfusion h),
   float_format_eight_places.2.2.2.2 "value" (.int 5)
     ⟨true, false, [("value", .int 5)]⟩ rfl⟩

theorem except_bind_ok {α β : Type} (a : α) (f : α → Except String β) :
    (Except.ok a : Except String α) >>= f = f a := rfl

/-- Closed form of `processOccurrence` on an alert-worthy last row: the
policy decision reduces to `alert_enabled` together with the `once`
deduplication check against the stored status.  With a non-empty signal list
the row in scope is the occurrence's own last row, whatever `latest_result`
held before. -/
theorem processOccurrence_worthy (render : RenderCtx → Except String String)
    (lastA : Snapshot) (exchange market indicator : String) (index : Nat)
    (latest0 : Option Row) (occ : Occurrence) (vals : Assoc Value) (row : Row)
    (hvals : signalValues occ.result occ.config.signal = Except.ok vals)
    (hsig : occ.config.signal ≠ [])
    (hlast : occ.result.getLast? = some row)
    (hworthy : row.is_hot = true ∨ row.is_cold = true) :
    processOccurrence render lastA exchange market indicator index latest0
        occ =
      if occ.config.alert_enabled = true ∧
         ¬(occ.config.alert_frequency = "once" ∧
           lookupLastStatus lastA exchange market indicator index =
             classifyStatus row) then
        (render ⟨vals, exchange, market, indicator, index,
           { occ with status := some (classifyStatus row) },
           classifyStatus row,
           lookupLastStatus lastA exchange market indicator index⟩) >>=
          fun msg => Except.ok (msg,
            { occ with status := some (classifyStatus row) }, some row)
      else Except.ok ("", occ, some row) := by
  obtain ⟨s, sigs, hs⟩ := List.exists_cons_of_ne_nil hsig
  have hlr : latestResult latest0 occ = Except.ok row := by
    unfold latestResult
    rw [hs, hlast]
  have hw : (row.is_hot || row.is_cold) = true := by
    rcases hworthy with h | h <;> simp [h]
  unfold processOccurrence
  rw [hvals, hlr, except_bind_ok, except_bind_ok]
  simp only [hw]
  by_cases hen : occ.config.alert_enabled = true
  · by_cases hoc : occ.config.alert_frequency = "once" ∧
        lookupLastStatus lastA exchange market indicator index =
          classifyStatus row
    · simp [hen, hoc]
    · simp [hen, hoc]
  · simp only [Bool.not_eq_true] at hen
    simp [hen]

/-- `processOccurrence` on a neutral last row: no message, no change to the
occurrence; `latest_result` is left holding the occurrence's own last row. -/
theorem processOccurrence_neutral (render : RenderCtx → Except String String)
    (lastA : Snapshot) (exchange market indicator : String) (index : Nat)
    (latest0 : Option Row) (occ : Occurrence) (vals : Assoc Value) (row : Row)
    (hvals : signalValues occ.result occ.config.signal = Except.ok vals)
    (hsig : occ.config.signal ≠ [])
    (hlast : occ.result.getLast? = some row)
    (hhot : row.is_hot = false) (hcold : row.is_cold = false) :
    processOccurrence render lastA exchange market indicator index latest0
        occ =
      Except.ok ("", occ, some row) := by
  obtain ⟨s, sigs, hs⟩ := List.exists_cons_of_ne_nil hsig
  have hlr : latestResult latest0 occ = Except.ok row := by
    unfold latestResult
    rw [hs, hlast]
  unfold processOccurrence
  rw [hvals, hlr, except_bind_ok, except_bind_ok]
  simp [hhot, hcold]

/-- C2: for an occurrence whose last row is alert-worthy, a message is
rendered if and only if `alert_enabled` is true and it is not the case that
`alert_frequency` is "once" with the stored last status equal to the current
status; on a neutral last row nothing is rendered and nothing is written. -/
theorem alert_fires_iff_policy (render : RenderCtx → Except String String)
    (f : RenderCtx → String)
    (hr : ∀ ctx, render ctx = Except.ok (f ctx)) (hf : ∀ ctx, f ctx ≠ "")
    (lastA : Snapshot) (exchange market indicator : String) (index : Nat)
    (latest0 : Option Row) (occ : Occurrence) (vals : Assoc Value) (row : Row)
    (hvals : signalValues occ.result occ.config.signal = Except.ok vals)
    (hsig : occ.config.signal ≠ [])
    (hlast : occ.result.getLast? = some row) :
    (row.is_hot = true ∨ row.is_cold = true →
      ∃ m occ2,
        processOccurrence render lastA exchange market indicator index
            latest0 occ =
          Except.ok (m, occ2, some row) ∧
        ((m ≠ "") ↔ (occ.config.alert_enabled = true ∧
          ¬(occ.config.alert_frequency = "once" ∧
            lookupLastStatus lastA exchange market indicator index =
              classifyStatus row)))) ∧
    (row.is_hot = false → row.is_cold = false →
      processOccurrence render lastA exchange market indicator index
          latest0 occ =
        Except.ok ("", occ, some row)) := by
  constructor
  · intro hworthy
    rw [processOccurrence_worthy render lastA exchange market indicator index
      latest0 occ vals row hvals hsig hlast hworthy]
    by_cases hcond : occ.config.alert_enabled = true ∧
        ¬(occ.config.alert_frequency = "once" ∧
          lookupLastStatus lastA exchange market indicator index =
            classifyStatus row)
    · rw [if_pos hcond, hr, except_bind_ok]
      exact ⟨_, _, rfl, iff_of_true (hf _) hcond⟩
    · rw [if_neg hcond]
      exact ⟨"", occ, rfl, iff_of_false (by simp) hcond⟩
  · intro hhot hcold
    exact processOccurrence_neutral render lastA exchange market indicator
      index latest0 occ vals row hvals hsig hlast hhot hcold

theorem alert_fires_iff_policy_w :
    (∃ m occ2,
      processOccurrence okRender [] "binance" "BTC/USD" "rsi" 0 none
          (mkOcc "once" true true false "v" [("v", .int 1)] none) =
        Except.ok (m, occ2, some ⟨true, false, [("v", .int 1)]⟩) ∧
      ((m ≠ "") ↔
        ((mkOcc "once" true true false "v" [("v", .int 1)]
            none).config.alert_enabled = true ∧
         ¬((mkOcc "once" true true false "v" [("v", .int 1)]
              none).config.alert_frequency = "once" ∧
           lookupLastStatus [] "binance" "BTC/USD" "rsi" 0 =
             classifyStatus ⟨true, false, [("v", .int 1)]⟩)))) ∧
    processOccurrence okRender [] "binance" "BTC/USD" "rsi" 0 none
        (mkOcc "once" true false false "v" [("v", .int 1)] none) =
      Except.ok ("", mkOcc "once" true false false "v" [("v", .int 1)] none,
        some ⟨false, false, [("v", .int 1)]⟩) :=
  ⟨(alert_fires_iff_policy okRender (fun _ => "ALERT") (fun _ => rfl)
      (fun _ => alert_text_ne_empty) [] "binance" "BTC/USD" "rsi" 0 none
      (mkOcc "once" true true false "v" [("v", .int 1)] none)
      [("v", .int 1)] ⟨true, false, [("v", .int 1)]⟩ rfl (by decide) rfl).1
      (Or.inl rfl),
   (alert_fires_iff_policy okRender (fun _ => "ALERT") (fun _ => rfl)
      (fun _ => alert_text_ne_empty) [] "binance" "BTC/USD" "rsi" 0 none
      (mkOcc "once" true false false "v" [("v", .int 1)] none)
      [("v", .int 1)] ⟨false, false, [("v", .int 1)]⟩ rfl (by decide) rfl).2
      rfl rfl⟩

theorem classify_worthy_ne_empty {row : Row}
    (hworthy : row.is_hot = true ∨ row.is_cold = true) :
    classifyStatus row ≠ "" := by
  unfold classifyStatus
  cases hh : row.is_hot with
  | true => simp
  | false =>
    rcases hworthy with h | h
    · rw [hh] at h; cases h
    · simp [h]

/-- C4: with no prior stored state the last-status lookup returns the empty
string (it never raises), and since the empty string differs from "hot" and
"cold", the first alert-worthy observation of an enabled occurrence renders a
message whatever the `alert_frequency` policy is — "once" included. -/
theorem first_observation_always_fires
    (render : RenderCtx → Except String String) (f : RenderCtx → String)
    (hr : ∀ ctx, render ctx = Except.ok (f ctx)) (hf : ∀ ctx, f ctx ≠ "")
    (lastA : Snapshot) (exchange market indicator : String) (index : Nat)
    (latest0 : Option Row) (occ : Occurrence) (vals : Assoc Value) (row : Row)
    (hnone : storedStatus? lastA exchange market indicator index = none)
    (hvals : signalValues occ.result occ.config.signal = Except.ok vals)
    (hsig : occ.config.signal ≠ [])
    (hlast : occ.result.getLast? = some row)
    (hworthy : row.is_hot = true ∨ row.is_cold = true)
    (hen : occ.config.alert_enabled = true) :
    lookupLastStatus lastA exchange market indicator index = "" ∧
    processOccurrence render lastA exchange market indicator index latest0
        occ =
      Except.ok (f ⟨vals, exchange, market, indicator, index,
          { occ with status := some (classifyStatus row) },
          classifyStatus row, ""⟩,
        { occ with status := some (classifyStatus row) }, some row) ∧
    f ⟨vals, exchange, market, indicator, index,
        { occ with status := some (classifyStatus row) },
        classifyStatus row, ""⟩ ≠ "" := by
  have hls : lookupLastStatus lastA exchange market indicator index = "" := by
    simp [lookupLastStatus, hnone]
  have hcl : classifyStatus row ≠ "" := classify_worthy_ne_empty hworthy
  refine ⟨hls, ?_, hf _⟩
  rw [processOccurrence_worthy render lastA exchange market indicator index
    latest0 occ vals row hvals hsig hlast hworthy, hls]
  rw [if_pos ⟨hen, fun hcontra => hcl hcontra.2.symm⟩]
  rw [hr, except_bind_ok]

theorem first_observation_always_fires_w :
    lookupLastStatus [] "binance" "BTC/USD" "rsi" 0 = "" ∧
    processOccurrence okRender [] "binance" "BTC/USD" "rsi" 0 none
        (mkOcc "always" true false true "v" [("v", .int 7)] none) =
      Except.ok ("ALERT",
        { mkOcc "always" true false true "v" [("v", .int 7)] none with
            status := some (classifyStatus ⟨false, true, [("v", .int 7)]⟩) },
        some ⟨false, true, [("v", .int 7)]⟩) :=
  ⟨(first_observation_always_fires okRender (fun _ => "ALERT") (fun _ => rfl)
      (fun _ => alert_text_ne_empty) [] "binance" "BTC/USD" "rsi" 0 none
      (mkOcc "always" true false true "v" [("v", .int 7)] none)
      [("v", .int 7)] ⟨false, true, [("v", .int 7)]⟩ rfl rfl (by decide) rfl
      (Or.inr rfl) rfl).1,
   (first_observation_always_fires okRender (fun _ => "ALERT") (fun _ => rfl)
      (fun _ => alert_text_ne_empty) [] "binance" "BTC/USD" "rsi" 0 none
      (mkOcc "always" true false true "v" [("v", .int 7)] none)
      [("v", .int 7)] ⟨false, true, [("v", .int 7)]⟩ rfl rfl (by decide) rfl
      (Or.inr rfl) rfl).2.1⟩

theorem signalValues_single (hot cold : Bool) {cols : Assoc Value}
    {sig : String} {v : Value} (h : alookup cols sig = some v) :
    signalValues [⟨hot, cold, cols⟩] [sig] =
      Except.ok [(sig, formatValue v)] := by
  simp [signalValues, List.getLast?, h, Bind.bind, Except.bind]

theorem lookupLastStatus_oneOcc (ex mk ind : String) (occ : Occurrence) :
    lookupLastStatus (oneOccSnap ex mk ind occ) ex mk ind 0 =
      occ.status.getD "" := by
  simp [lookupLastStatus, storedStatus?, oneOccSnap, alookup]

/-- C1: with `alert_frequency` "once" and `alert_enabled` true, a Hot cycle
starting from an empty store fires; a second Hot cycle against the resulting
store is suppressed (exactly one message across the two cycles), while a Cold
second cycle fires again (two messages); and rerunning the templating
function on the unchanged snapshot yields the empty message. -/
theorem once_policy_two_cycle_dedup
    (render : RenderCtx → Except String String) (f : RenderCtx → String)
    (hr : ∀ ctx, render ctx = Except.ok (f ctx)) (hf : ∀ ctx, f ctx ≠ "")
    (ex mk ind sig : String) (v1 v2 : Value) (cols1 cols2 : Assoc Value)
    (h1 : alookup cols1 sig = some v1) (h2 : alookup cols2 sig = some v2) :
    (∃ m1, message_templater render []
        (oneOccSnap ex mk ind (mkOcc "once" true true false sig cols1 none)) =
      Except.ok (m1,
        oneOccSnap ex mk ind (mkOcc "once" true true false sig cols1
          (some "hot")),
        oneOccSnap ex mk ind (mkOcc "once" true true false sig cols1
          (some "hot"))) ∧ m1 ≠ "") ∧
    message_templater render
        (oneOccSnap ex mk ind (mkOcc "once" true true false sig cols1
          (some "hot")))
        (oneOccSnap ex mk ind (mkOcc "once" true true false sig cols2 none)) =
      Except.ok ("",
        oneOccSnap ex mk ind (mkOcc "once" true true false sig cols2 none),
        oneOccSnap ex mk ind (mkOcc "once" true true false sig cols2 none)) ∧
    (∃ m2, message_templater render
        (oneOccSnap ex mk ind (mkOcc "once" true true false sig cols1
          (some "hot")))
        (oneOccSnap ex mk ind (mkOcc "once" true false true sig cols2 none)) =
      Except.ok (m2,
        oneOccSnap ex mk ind (mkOcc "once" true false true sig cols2
          (some "cold")),
        oneOccSnap ex mk ind (mkOcc "once" true false true sig cols2
          (some "cold"))) ∧ m2 ≠ "") ∧
    message_templater render
        (oneOccSnap ex mk ind (mkOcc "once" true true false sig cols1
          (some "hot")))
        (oneOccSnap ex mk ind (mkOcc "once" true true false sig cols1 none)) =
      Except.ok ("",
        oneOccSnap ex mk ind (mkOcc "once" true true false sig cols1 none),
        oneOccSnap ex mk ind (mkOcc "once" true true false sig cols1 none)) := by
  refine ⟨⟨f ⟨[(sig, formatValue v1)], ex, mk, ind, 0,
      ⟨⟨[sig], "once", true⟩, [⟨true, false, cols1⟩], some "hot"⟩,
      "hot", ""⟩, ?_, hf _⟩, ?_,
    ⟨f ⟨[(sig, formatValue v2)], ex, mk, ind, 0,
      ⟨⟨[sig], "once", true⟩, [⟨false, true, cols2⟩], some "cold"⟩,
      "cold", "hot"⟩, ?_, hf _⟩, ?_⟩ <;>
    simp +decide [message_templater, processExchanges, processMarkets,
      processIndicators, processOccList, processOccurrence, latestResult,
      signalValues_single true false h1, signalValues_single true false h2,
      signalValues_single false true h2, classifyStatus,
      lookupLastStatus, storedStatus?, alookup, oneOccSnap, mkOcc, dictMerge,
      hr, Bind.bind, Except.bind, List.getLast?]

theorem once_policy_two_cycle_dedup_w :
    (∃ m1, message_templater okRender []
        (oneOccSnap "binance" "BTC/USD" "rsi"
          (mkOcc "once" true true false "v" [("v", .int 1)] none)) =
      Except.ok (m1,
        oneOccSnap "binance" "BTC/USD" "rsi"
          (mkOcc "once" true true false "v" [("v", .int 1)] (some "hot")),
        oneOccSnap "binance" "BTC/USD" "rsi"
          (mkOcc "once" true true false "v" [("v", .int 1)] (some "hot"))) ∧
      m1 ≠ "") ∧
    message_templater okRender
        (oneOccSnap "binance" "BTC/USD" "rsi"
          (mkOcc "once" true true false "v" [("v", .int 1)] (some "hot")))
        (oneOccSnap "binance" "BTC/USD" "rsi"
          (mkOcc "once" true true false "v" [("v", .int 2)] none)) =
      Except.ok ("",
        oneOccSnap "binance" "BTC/USD" "rsi"
          (mkOcc "once" true true false "v" [("v", .int 2)] none),
        oneOccSnap "binance" "BTC/USD" "rsi"
          (mkOcc "once" true true false "v" [("v", .int 2)] none)) :=
  ⟨(once_policy_two_cycle_dedup okRender (fun _ => "ALERT") (fun _ => rfl)
      (fun _ => alert_text_ne_empty) "binance" "BTC/USD" "rsi" "v"
      (.int 1) (.int 2) [("v", .int 1)] [("v", .int 2)] rfl rfl).1,
   (once_policy_two_cycle_dedup okRender (fun _ => "ALERT") (fun _ => rfl)
      (fun _ => alert_text_ne_empty) "binance" "BTC/USD" "rsi" "v"
      (.int 1) (.int 2) [("v", .int 1)] [("v", .int 2)] rfl rfl).2.1⟩

/-- C10: when the state store is empty, notification.py line 230 first
assigns it the input snapshot itself, so on that first-ever call an
occurrence whose incoming record already carries a `status` field equal to
its current status is suppressed under the "once" policy even though no
prior cycle ever fired for it. -/
theorem first_call_store_alias_suppression
    (render : RenderCtx → Except String String)
    (ex mk ind sig : String) (v : Value) (cols : Assoc Value)
    (h : alookup cols sig = some v) :
    message_templater render []
        (oneOccSnap ex mk ind
          (mkOcc "once" true true false sig cols (some "hot"))) =
      Except.ok ("",
        oneOccSnap ex mk ind
          (mkOcc "once" true true false sig cols (some "hot")),
        oneOccSnap ex mk ind
          (mkOcc "once" true true false sig cols (some "hot"))) := by
  simp +decide [message_templater, processExchanges, processMarkets,
    processIndicators, processOccList, processOccurrence, latestResult,
    signalValues_single true false h, classifyStatus, lookupLastStatus,
    storedStatus?, alookup, oneOccSnap, mkOcc, dictMerge, Bind.bind,
    Except.bind, List.getLast?]

theorem first_call_store_alias_suppression_w :
    message_templater okRender []
        (oneOccSnap "binance" "BTC/USD" "rsi"
          (mkOcc "once" true true false "v" [("v", .int 3)] (some "hot"))) =
      Except.ok ("",
        oneOccSnap "binance" "BTC/USD" "rsi"
          (mkOcc "once" true true false "v" [("v", .int 3)] (some "hot")),
        oneOccSnap "binance" "BTC/USD" "rsi"
          (mkOcc "once" true true false "v" [("v", .int 3)] (some "hot"))) :=
  first_call_store_alias_suppression okRender "binance" "BTC/USD" "rsi" "v"
    (.int 3) [("v", .int 3)] rfl

theorem except_bind_error {α β : Type} (e : String)
    (f : α → Except String β) :
    (Except.error e : Except String α) >>= f = Except.error e := rfl

theorem latestResult_ok {latest0 : Option Row} {occ : Occurrence} {row : Row}
    (h : latestResult latest0 occ = Except.ok row)
    (hsig : occ.config.signal ≠ []) :
    occ.result.getLast? = some row := by
  unfold latestResult at h
  cases hs : occ.config.signal with
  | nil => exact absurd hs hsig
  | cons a l =>
    rw [hs] at h
    cases hl : occ.result.getLast? with
    | none => rw [hl] at h; exact Except.noConfusion h
    | some r =>
      rw [hl] at h
      injection h with h
      rw [h]

/-- What one loop iteration may do to an occurrence: leave it alone, or
overwrite exactly its `status` field with the classification of some
alert-worthy row — the occurrence's own last row whenever its `signal` list
is non-empty; an occurrence with an empty `signal` list reuses the stale
`latest_result` of a previously processed occurrence, so only the written
value's shape is guaranteed there. -/
def OccFrame (occ occ2 : Occurrence) : Prop :=
  occ2.config = occ.config ∧ occ2.result = occ.result ∧
  (occ2 = occ ∨ ∃ row : Row,
    (row.is_hot = true ∨ row.is_cold = true) ∧
    occ2 = { occ with status := some (classifyStatus row) } ∧
    (occ.config.signal ≠ [] → occ.result.getLast? = some row))

/-- The snapshot returned by the engine has the same tree of keys as the
input snapshot and each occurrence is `OccFrame`-related to its input. -/
def SnapFrame (snap snap2 : Snapshot) : Prop :=
  List.Forall₂ (fun e e2 => e.1 = e2.1 ∧
    List.Forall₂ (fun mkt mkt2 => mkt.1 = mkt2.1 ∧
      List.Forall₂ (fun ind ind2 => ind.1 = ind2.1 ∧
        List.Forall₂ OccFrame ind.2 ind2.2)
        mkt.2.indicators mkt2.2.indicators)
      e.2 e2.2) snap snap2

theorem processOccurrence_frame (render : RenderCtx → Except String String)
    (lastA : Snapshot) (exchange market indicator : String) (index : Nat)
    (latest0 : Option Row) (occ : Occurrence) (m : String)
    (occ2 : Occurrence) (lat2 : Option Row)
    (h : processOccurrence render lastA exchange market indicator index
      latest0 occ = Except.ok (m, occ2, lat2)) : OccFrame occ occ2 := by
  unfold processOccurrence at h
  cases hv : signalValues occ.result occ.config.signal with
  | error e => rw [hv, except_bind_error] at h; exact Except.noConfusion h
  | ok vals =>
    rw [hv, except_bind_ok] at h
    cases hl : latestResult latest0 occ with
    | error e => rw [hl, except_bind_error] at h; exact Except.noConfusion h
    | ok row =>
      rw [hl, except_bind_ok] at h
      try dsimp only at h
      by_cases hw : (row.is_hot || row.is_cold) = true
      · rw [if_pos hw] at h
        by_cases hsa : (if occ.config.alert_enabled = false then false
            else if occ.config.alert_frequency = "once" ∧
              lookupLastStatus lastA exchange market indicator index =
                classifyStatus row then false else true) = true
        · rw [if_pos hsa] at h
          try dsimp only at h
          cases hrr : render ⟨vals, exchange, market, indicator, index,
              ⟨occ.config, occ.result, some (classifyStatus row)⟩,
              classifyStatus row,
              lookupLastStatus lastA exchange market indicator index⟩ with
          | error e =>
            rw [hrr, except_bind_error] at h
            exact Except.noConfusion h
          | ok msg =>
            rw [hrr, except_bind_ok] at h
            injection h with h
            injection h with hm h
            injection h with hocc hlat
            refine ⟨by rw [← hocc], by rw [← hocc], Or.inr ⟨row,
              by rw [Bool.or_eq_true] at hw; exact hw, hocc.symm,
              fun hsig => latestResult_ok hl hsig⟩⟩
        · rw [if_neg hsa] at h
          injection h with h
          injection h with hm h
          injection h with hocc hlat
          exact ⟨by rw [← hocc], by rw [← hocc], Or.inl hocc.symm⟩
      · rw [if_neg hw] at h
        injection h with h
        injection h with hm h
        injection h with hocc hlat
        exact ⟨by rw [← hocc], by rw [← hocc], Or.inl hocc.symm⟩

theorem processOccList_frame (render : RenderCtx → Except String String)
    (lastA : Snapshot) (exchange market indicator : String) :
    ∀ (index : Nat) (latest0 : Option Row) (occs : List Occurrence)
    (m : String) (occs2 : List Occurrence) (lat2 : Option Row),
    processOccList render lastA exchange market indicator index latest0
      occs = Except.ok (m, occs2, lat2) →
    List.Forall₂ OccFrame occs occs2 := by
  intro index latest0 occs
  induction occs generalizing index latest0 with
  | nil =>
    intro m occs2 lat2 h
    unfold processOccList at h
    injection h with h
    injection h with hm h
    injection h with hsnap hlat
    rw [← hsnap]
    exact List.Forall₂.nil
  | cons occ rest ih =>
    intro m occs2 lat2 h
    unfold processOccList at h
    cases h1 : processOccurrence render lastA exchange market indicator
        index latest0 occ with
    | error e => rw [h1, except_bind_error] at h; exact Except.noConfusion h
    | ok p =>
      obtain ⟨p1, p2, p3⟩ := p
      rw [h1, except_bind_ok] at h
      try dsimp only at h
      cases h2 : processOccList render lastA exchange market indicator
          (index + 1) p3 rest with
      | error e =>
        rw [h2, except_bind_error] at h; exact Except.noConfusion h
      | ok q =>
        obtain ⟨q1, q2, q3⟩ := q
        rw [h2, except_bind_ok] at h
        try dsimp only at h
        injection h with h
        injection h with hm h
        injection h with hsnap hlat
        rw [← hsnap]
        exact List.Forall₂.cons
          (processOccurrence_frame render lastA exchange market indicator
            index latest0 occ p1 p2 p3 h1)
          (ih (index + 1) p3 q1 q2 q3 h2)

theorem processIndicators_frame (render : RenderCtx → Except String String)
    (lastA : Snapshot) (exchange market : String) :
    ∀ (latest0 : Option Row) (inds : Assoc (List Occurrence)) (m : String)
    (inds2 : Assoc (List Occurrence)) (lat2 : Option Row),
    processIndicators render lastA exchange market latest0 inds =
      Except.ok (m, inds2, lat2) →
    List.Forall₂ (fun ind ind2 => ind.1 = ind2.1 ∧
      List.Forall₂ OccFrame ind.2 ind2.2) inds inds2 := by
  intro latest0 inds
  induction inds generalizing latest0 with
  | nil =>
    intro m inds2 lat2 h
    unfold processIndicators at h
    injection h with h
    injection h with hm h
    injection h with hsnap hlat
    rw [← hsnap]
    exact List.Forall₂.nil
  | cons p rest ih =>
    intro m inds2 lat2 h
    unfold processIndicators at h
    cases h1 : processOccList render lastA exchange market p.1 0 latest0
        p.2 with
    | error e => rw [h1, except_bind_error] at h; exact Except.noConfusion h
    | ok q1 =>
      obtain ⟨q11, q12, q13⟩ := q1
      rw [h1, except_bind_ok] at h
      try dsimp only at h
      cases h2 : processIndicators render lastA exchange market q13 rest with
      | error e =>
        rw [h2, except_bind_error] at h; exact Except.noConfusion h
      | ok q2 =>
        obtain ⟨q21, q22, q23⟩ := q2
        rw [h2, except_bind_ok] at h
        try dsimp only at h
        injection h with h
        injection h with hm h
        injection h with hsnap hlat
        rw [← hsnap]
        exact List.Forall₂.cons
          ⟨rfl, processOccList_frame render lastA exchange market p.1 0
            latest0 p.2 q11 q12 q13 h1⟩
          (ih q13 q21 q22 q23 h2)

theorem processMarkets_frame (render : RenderCtx → Except String String)
    (lastA : Snapshot) (exchange : String) :
    ∀ (latest0 : Option Row) (mkts : Assoc Market) (m : String)
    (mkts2 : Assoc Market) (lat2 : Option Row),
    processMarkets render lastA exchange latest0 mkts =
      Except.ok (m, mkts2, lat2) →
    List.Forall₂ (fun mkt mkt2 => mkt.1 = mkt2.1 ∧
      List.Forall₂ (fun ind ind2 => ind.1 = ind2.1 ∧
        List.Forall₂ OccFrame ind.2 ind2.2)
        mkt.2.indicators mkt2.2.indicators) mkts mkts2 := by
  intro latest0 mkts
  induction mkts generalizing latest0 with
  | nil =>
    intro m mkts2 lat2 h
    unfold processMarkets at h
    injection h with h
    injection h with hm h
    injection h with hsnap hlat
    rw [← hsnap]
    exact List.Forall₂.nil
  | cons p rest ih =>
    intro m mkts2 lat2 h
    unfold processMarkets at h
    cases h1 : processIndicators render lastA exchange p.1 latest0
        p.2.indicators with
    | error e => rw [h1, except_bind_error] at h; exact Except.noConfusion h
    | ok q1 =>
      obtain ⟨q11, q12, q13⟩ := q1
      rw [h1, except_bind_ok] at h
      try dsimp only at h
      cases h2 : processMarkets render lastA exchange q13 rest with
      | error e =>
        rw [h2, except_bind_error] at h; exact Except.noConfusion h
      | ok q2 =>
        obtain ⟨q21, q22, q23⟩ := q2
        rw [h2, except_bind_ok] at h
        try dsimp only at h
        injection h with h
        injection h with hm h
        injection h with hsnap hlat
        rw [← hsnap]
        exact List.Forall₂.cons
          ⟨rfl, processIndicators_frame render lastA exchange p.1 latest0
            p.2.indicators q11 q12 q13 h1⟩
          (ih q13 q21 q22 q23 h2)

theorem processExchanges_frame (render : RenderCtx → Except String String)
    (lastA : Snapshot) :
    ∀ (latest0 : Option Row) (snap : Snapshot) (m : String)
    (snap2 : Snapshot) (lat2 : Option Row),
    processExchanges render lastA latest0 snap = Except.ok (m, snap2, lat2) →
    SnapFrame snap snap2 := by
  intro latest0 snap
  induction snap generalizing latest0 with
  | nil =>
    intro m snap2 lat2 h
    unfold processExchanges at h
    injection h with h
    injection h with hm h
    injection h with hsnap hlat
    rw [SnapFrame, ← hsnap]
    exact List.Forall₂.nil
  | cons p rest ih =>
    intro m snap2 lat2 h
    unfold processExchanges at h
    cases h1 : processMarkets render lastA p.1 latest0 p.2 with
    | error e => rw [h1, except_bind_error] at h; exact Except.noConfusion h
    | ok q1 =>
      obtain ⟨q11, q12, q13⟩ := q1
      rw [h1, except_bind_ok] at h
      try dsimp only at h
      cases h2 : processExchanges render lastA q13 rest with
      | error e =>
        rw [h2, except_bind_error] at h; exact Except.noConfusion h
      | ok q2 =>
        obtain ⟨q21, q22, q23⟩ := q2
        rw [h2, except_bind_ok] at h
        try dsimp only at h
        injection h with h
        injection h with hm h
        injection h with hsnap hlat
        rw [SnapFrame, ← hsnap]
        exact List.Forall₂.cons
          ⟨rfl, processMarkets_frame render lastA p.1 latest0 p.2
            q11 q12 q13 h1⟩
          (ih q13 q21 q22 q23 h2)

theorem templater_core_frame (render : RenderCtx → Except String String)
    (lastA snap : Snapshot) (m : String) (snap2 st2 : Snapshot)
    (h : ((do
        let x ← processExchanges render lastA none snap
        Except.ok (x.1, x.2.1, dictMerge lastA x.2.1)) :
        Except String (String × Snapshot × Snapshot)) =
      Except.ok (m, snap2, st2)) :
    SnapFrame snap snap2 ∧ st2 = dictMerge lastA snap2 := by
  cases h1 : processExchanges render lastA none snap with
  | error e => rw [h1, except_bind_error] at h; exact Except.noConfusion h
  | ok p =>
    rw [h1, except_bind_ok] at h
    injection h with h
    injection h with hm h2
    injection h2 with hsnap hst
    constructor
    · rw [← hsnap]
      exact processExchanges_frame render lastA none snap p.1 p.2.1 p.2.2 h1
    · rw [← hst, hsnap]

/-- C7 amended: the embedding of `_message_templater` is a pure function of
the renderer, the store and the snapshot (determinism and the absence of
I/O hold by construction), and its store update is exactly the line-280
exchange-level merge; but the input snapshot is NOT left unchanged — line
267 mutates the caller's snapshot: a fired occurrence has exactly its
`status` field overwritten with the classification of the alert-worthy row
held by `latest_result`, which is the occurrence's own last row whenever its
`signal` list is non-empty (an empty-signal occurrence reuses the stale row
of a previously processed occurrence); `config`, `result` and non-fired
occurrences are unchanged. -/
theorem templater_snapshot_frame (render : RenderCtx → Except String String)
    (st snap : Snapshot) (m : String) (snap2 st2 : Snapshot)
    (h : message_templater render st snap = Except.ok (m, snap2, st2)) :
    SnapFrame snap snap2 ∧
    (st = [] → st2 = dictMerge snap snap2) ∧
    (st ≠ [] → st2 = dictMerge st snap2) := by
  unfold message_templater at h
  cases st with
  | nil =>
    have hc := templater_core_frame render snap snap m snap2 st2 h
    exact ⟨hc.1, fun _ => hc.2, fun hne => absurd rfl hne⟩
  | cons q st' =>
    have hc := templater_core_frame render (q :: st') snap m snap2 st2 h
    exact ⟨hc.1, fun heq => List.noConfusion heq, fun _ => hc.2⟩

theorem templater_snapshot_frame_w :
    SnapFrame
      (oneOccSnap "ex" "mkt" "rsi"
        (mkOcc "always" true true false "v" [("v", .int 1)] none))
      (oneOccSnap "ex" "mkt" "rsi"
        (mkOcc "always" true true false "v" [("v", .int 1)] (some "hot"))) ∧
    (([] : Snapshot) = [] →
      oneOccSnap "ex" "mkt" "rsi"
        (mkOcc "always" true true false "v" [("v", .int 1)] (some "hot")) =
      dictMerge
        (oneOccSnap "ex" "mkt" "rsi"
          (mkOcc "always" true true false "v" [("v", .int 1)] none))
        (oneOccSnap "ex" "mkt" "rsi"
          (mkOcc "always" true true false "v" [("v", .int 1)]
            (some "hot")))) ∧
    (([] : Snapshot) ≠ [] →
      oneOccSnap "ex" "mkt" "rsi"
        (mkOcc "always" true true false "v" [("v", .int 1)] (some "hot")) =
      dictMerge []
        (oneOccSnap "ex" "mkt" "rsi"
          (mkOcc "always" true true false "v" [("v", .int 1)]
            (some "hot")))) :=
  templater_snapshot_frame okRender []
    (oneOccSnap "ex" "mkt" "rsi"
      (mkOcc "always" true true false "v" [("v", .int 1)] none))
    "ALERT"
    (oneOccSnap "ex" "mkt" "rsi"
      (mkOcc "always" true true false "v" [("v", .int 1)] (some "hot")))
    (oneOccSnap "ex" "mkt" "rsi"
      (mkOcc "always" true true false "v" [("v", .int 1)] (some "hot")))
    rfl

/-- C7 counterexample: one Hot enabled cycle returns a snapshot that differs
from the input snapshot — line 267 wrote `status` "hot" into the caller's
data, so the call does have a side effect on the input snapshot. -/
theorem snapshot_mutated_cex :
    message_templater okRender []
        (oneOccSnap "ex" "mkt" "rsi"
          (mkOcc "always" true true false "v" [("v", .int 1)] none)) =
      Except.ok ("ALERT",
        oneOccSnap "ex" "mkt" "rsi"
          (mkOcc "always" true true false "v" [("v", .int 1)] (some "hot")),
        oneOccSnap "ex" "mkt" "rsi"
          (mkOcc "always" true true false "v" [("v", .int 1)]
            (some "hot"))) ∧
    oneOccSnap "ex" "mkt" "rsi"
        (mkOcc "always" true true false "v" [("v", .int 1)] (some "hot")) ≠
      oneOccSnap "ex" "mkt" "rsi"
        (mkOcc "always" true true false "v" [("v", .int 1)] none) :=
  ⟨rfl, by decide⟩

/-- C3 counterexample: a Hot "once" cycle commits status "hot" for the
occurrence, but the following neutral cycle — whose fresh snapshot carries no
`status` — commits a store in which that stored status is gone: the lookup
afterwards yields "" instead of the intact "hot". -/
theorem stored_status_erased_cex :
    message_templater okRender []
        (oneOccSnap "ex" "mkt" "rsi"
          (mkOcc "once" true true false "v" [("v", .int 1)] none)) =
      Except.ok ("ALERT",
        oneOccSnap "ex" "mkt" "rsi"
          (mkOcc "once" true true false "v" [("v", .int 1)] (some "hot")),
        oneOccSnap "ex" "mkt" "rsi"
          (mkOcc "once" true true false "v" [("v", .int 1)] (some "hot"))) ∧
    lookupLastStatus
        (oneOccSnap "ex" "mkt" "rsi"
          (mkOcc "once" true true false "v" [("v", .int 1)] (some "hot")))
        "ex" "mkt" "rsi" 0 = "hot" ∧
    message_templater okRender
        (oneOccSnap "ex" "mkt" "rsi"
          (mkOcc "once" true true false "v" [("v", .int 1)] (some "hot")))
        (oneOccSnap "ex" "mkt" "rsi"
          (mkOcc "once" true false false "v" [("v", .int 2)] none)) =
      Except.ok ("",
        oneOccSnap "ex" "mkt" "rsi"
          (mkOcc "once" true false false "v" [("v", .int 2)] none),
        oneOccSnap "ex" "mkt" "rsi"
          (mkOcc "once" true false false "v" [("v", .int 2)] none)) ∧
    lookupLastStatus
        (oneOccSnap "ex" "mkt" "rsi"
          (mkOcc "once" true false false "v" [("v", .int 2)] none))
        "ex" "mkt" "rsi" 0 = "" :=
  ⟨rfl, rfl, rfl, rfl⟩

/-- C3 amended: the `status` field is written into an occurrence only in a
cycle where an alert fires for it (the row held by `latest_result` was
alert-worthy and the policy passed; for an occurrence with a non-empty
`signal` list that row is its own last row); but because the end-of-cycle
merge replaces each exchange subtree with the new snapshot's subtree
wholesale, a neutral cycle fed a fresh status-free snapshot commits a store
in which the occurrence's previously stored status is absent (the lookup
yields the empty sentinel, whatever the prior store held) — the stored
status survives only as long as the incoming snapshots carry it. -/
theorem neutral_cycle_erases_stored_status
    (render : RenderCtx → Except String String)
    (q : String × Assoc Market) (st : Snapshot)
    (ex mk ind sig freq : String) (en : Bool) (v : Value)
    (cols : Assoc Value) (h : alookup cols sig = some v) :
    message_templater render (q :: st)
        (oneOccSnap ex mk ind (mkOcc freq en false false sig cols none)) =
      Except.ok ("",
        oneOccSnap ex mk ind (mkOcc freq en false false sig cols none),
        dictMerge (q :: st)
          (oneOccSnap ex mk ind
            (mkOcc freq en false false sig cols none))) ∧
    lookupLastStatus
        (dictMerge (q :: st)
          (oneOccSnap ex mk ind (mkOcc freq en false false sig cols none)))
        ex mk ind 0 = "" ∧
    (∀ (lastA : Snapshot) (idx : Nat) (latest0 : Option Row)
      (occ : Occurrence) (m : String) (occ2 : Occurrence) (lat2 : Option Row),
      processOccurrence render lastA ex mk ind idx latest0 occ =
        Except.ok (m, occ2, lat2) →
      occ2.status ≠ occ.status →
      ∃ row : Row, (row.is_hot = true ∨ row.is_cold = true) ∧
        occ2 = { occ with status := some (classifyStatus row) } ∧
        (occ.config.signal ≠ [] → occ.result.getLast? = some row)) := by
  refine ⟨?_, ?_, ?_⟩
  · simp [message_templater, processExchanges, processMarkets,
      processIndicators, processOccList, processOccurrence, latestResult,
      signalValues_single false false h, classifyStatus, Bind.bind,
      Except.bind, List.getLast?, mkOcc, oneOccSnap]
  · rw [lookupLastStatus, storedStatus?, alookup_dictMerge]
    simp [oneOccSnap, alookup, mkOcc]
  · intro lastA idx latest0 occ m occ2 lat2 hp hne
    rcases (processOccurrence_frame render lastA ex mk ind idx latest0 occ m
        occ2 lat2 hp).2.2 with heq | hex
    · exact absurd (by rw [heq]) hne
    · exact hex

theorem neutral_cycle_erases_stored_status_w :
    message_templater okRender
        [("other", [])]
        (oneOccSnap "ex" "mkt" "rsi"
          (mkOcc "once" true false false "v" [("v", .int 2)] none)) =
      Except.ok ("",
        oneOccSnap "ex" "mkt" "rsi"
          (mkOcc "once" true false false "v" [("v", .int 2)] none),
        dictMerge [("other", [])]
          (oneOccSnap "ex" "mkt" "rsi"
            (mkOcc "once" true false false "v" [("v", .int 2)] none))) ∧
    lookupLastStatus
        (dictMerge [("other", [])]
          (oneOccSnap "ex" "mkt" "rsi"
            (mkOcc "once" true false false "v" [("v", .int 2)] none)))
        "ex" "mkt" "rsi" 0 = "" :=
  ⟨(neutral_cycle_erases_stored_status okRender ("other", []) [] "ex" "mkt"
      "rsi" "v" "once" true (.int 2) [("v", .int 2)] rfl).1,
   (neutral_cycle_erases_stored_status okRender ("other", []) [] "ex" "mkt"
      "rsi" "v" "once" true (.int 2) [("v", .int 2)] rfl).2.1⟩

/-- C8 counterexample: with a failing renderer, a cycle holding two
alert-worthy enabled occurrences aborts wholesale: the call returns the
rendering error, so no message is produced for the other occurrence and no
state merge is committed. -/
theorem render_failure_aborts_cex :
    message_templater (fun _ => Except.error "boom") []
        [("ex", [("mkt", ⟨[("rsi",
          [mkOcc "always" true true false "v" [("v", .int 1)] none,
           mkOcc "always" true true false "v" [("v", .int 2)] none])]⟩)])] =
      Except.error "boom" := rfl

/-- C8 amended: the source guards only the last-status lookup with
`try/except` (lines 253-256); template rendering at line 268 is unguarded,
so a rendering failure for one occurrence propagates out of the call — later
occurrences of the same cycle are never processed and the line-280 merge is
not committed (no state is returned). -/
theorem render_failure_propagates (render : RenderCtx → Except String String)
    (q : String × Assoc Market) (st : Snapshot) (ex mk ind : String)
    (occ : Occurrence) (rest : List Occurrence) (e : String)
    (hocc : processOccurrence render (q :: st) ex mk ind 0 none occ =
      Except.error e) :
    message_templater render (q :: st)
        [(ex, [(mk, ⟨[(ind, occ :: rest)]⟩)])] =
      Except.error e := by
  simp only [message_templater, processExchanges, processMarkets,
    processIndicators, processOccList, hocc, except_bind_error,
    Bind.bind, Except.bind]

theorem render_failure_propagates_w :
    message_templater (fun _ => Except.error "boom")
        [("prev", [])]
        [("ex", [("mkt", ⟨[("rsi",
          [mkOcc "always" true true false "v" [("v", .int 1)] none])]⟩)])] =
      Except.error "boom" :=
  render_failure_propagates (fun _ => Except.error "boom") ("prev", []) []
    "ex" "mkt" "rsi" (mkOcc "always" true true false "v" [("v", .int 1)] none)
    [] "boom" rfl

end NewApp
